import Mathlib

/-!
Shallow embedding of `swamp.go` (AWS profile/session-token chaining tool).

The program is modelled as deterministic state-passing code over an explicit
environment `Env` of oracle answers for the external collaborators (the STS
service, stdin, the filesystem).  Every call to a collaborator is recorded as
an `Event` in the state, fatal `die` calls are modelled as an `Except.error`
carrying the process exit code and the diagnostic message, and the credentials
store and export files are association lists inside the state.
-/

namespace Swamp

/-- `sts.Credentials`: the credential record returned by the provider. -/
structure Credentials where
  accessKeyId : String
  secretAccessKey : String
  sessionToken : String
  expiration : Int
deriving DecidableEq, Repr

/-- `SwampConfig`: the fully resolved configuration (flags already parsed and
validated; `main` lines 120-133). -/
structure SwampConfig where
  targetProfile : String
  intermediateProfile : String
  profile : String
  region : String
  tokenSerialNumber : String
  intermediateDuration : Int
  targetDuration : Int
  roleArn : String
  renew : Bool
  exportProfile : Bool
  exportFile : String
  useInstanceProfile : Bool
deriving DecidableEq, Repr

/-- The identity of an AWS session: `session.NewSessionWithOptions` yields a
profile-based session (`fromInstanceMetadata = false`); `session.NewSession()`
in the instance-profile branch yields a metadata-based one. -/
structure Sess where
  region : String
  profile : String
  fromInstanceMetadata : Bool
deriving DecidableEq, Repr

/-- Observable interactions of one run: provider calls, the MFA prompt,
profile and export-file writes, status output and sleeps. -/
inductive Event where
  | callerIdCall (sess : Sess)
  | mfaPrompt (serial : String)
  | sessionTokenCall (sess : Sess) (duration : Int) (serial : String) (code : Option String)
  | assumeRoleCall (sess : Sess) (roleArn sessionName : String) (duration : Int)
  | profileWrite (name : String) (cred : Credentials) (region : String)
  | exportWrite (path content : String)
  | stdout (msg : String)
  | sleep (seconds : Int)
deriving DecidableEq, Repr

/-- Oracle answers of the external collaborators.  The first argument is the
value of the interaction clock at the moment of the call, so a collaborator
may answer differently across successive calls (e.g. the intermediate profile
is invalid before fresh credentials are written and valid afterwards).  Each
function returns either a provider error message or the successful result. -/
structure Env where
  callerId : Nat → Sess → Except String String
  readLine : Nat → Except String String
  sessionToken : Nat → Sess → Int → String → Option String → Except String Credentials
  assumeRole : Nat → Sess → String → String → Int → Except String Credentials
  createFile : Nat → String → Except String Unit
  instanceRegion : String

/-- Result of `die`: exit code (always 1 in the source) and the stderr line. -/
structure Fatal where
  exitCode : Nat
  msg : String
deriving DecidableEq, Repr

/-- Program state: the `~/.aws/credentials` store (profile name mapped to
credentials and region), the contents of written export files, and the trace
of events so far. -/
structure St where
  store : List (String × Credentials × String)
  exportFiles : List (String × String)
  events : List Event
  clock : Nat
deriving DecidableEq, Repr

/-- `M α`: a state-passing computation that either succeeds with an `α` or
terminates the process via `die`; both outcomes keep the final state. -/
abbrev M (α : Type) : Type := St → Except Fatal α × St

/-- Upsert into an association list: the new entry replaces every previous
entry of the same key. -/
def upsert {β : Type} (l : List (String × β)) (k : String) (v : β) :
    List (String × β) :=
  (k, v) :: l.filter (fun p => p.1 ≠ k)

/-- Look a key up in an association list (first match). -/
def lookupP {β : Type} (k : String) : List (String × β) → Option β
  | [] => none
  | (k1, v) :: t => if k1 = k then some v else lookupP k t

/-- Append an event to the trace. -/
def record (e : Event) (s : St) : St :=
  { s with events := s.events ++ [e] }

/-- Advance the interaction clock by one external call. -/
def tick (s : St) : St :=
  { s with clock := s.clock + 1 }

/-- `die(msg, err)` (lines 16-19): print `msg: err` to stderr, exit 1. -/
def dieF (msg err : String) : Fatal :=
  ⟨1, msg ++ ": " ++ err⟩

/-- Go `strings.Trim(s, " \r\n")` cutset membership. -/
def isCut (c : Char) : Bool :=
  c = ' ' || c = '\r' || c = '\n'

/-- Go `strings.Trim(s, " \r\n")`: strip leading and trailing cutset
characters. -/
def goTrim (s : String) : String :=
  ⟨((s.data.dropWhile isCut).reverse.dropWhile isCut).reverse⟩

/-- Go `strings.Split(s, "/")` on the character list: split at every slash,
keeping empty fields; the result is always nonempty. -/
def splitSlash : List Char → List (List Char)
  | [] => [[]]
  | c :: cs =>
    if c = '/' then [] :: splitSlash cs
    else
      match splitSlash cs with
      | [] => [[c]]
      | h :: t => (c :: h) :: t

/-- `parts[len(parts)-1]` of `strings.Split(arn, "/")` (lines 103-104). -/
def lastSegment (s : String) : String :=
  ⟨(splitSlash s.data).getLastD []⟩

/-- `getCallerId` (lines 21-28): `GetCallerIdentity`, fatal on error,
returning the caller ARN. -/
def getCallerId (env : Env) (sess : Sess) : M String := fun s =>
  let s1 := record (.callerIdCall sess) (tick s)
  match env.callerId s.clock sess with
  | .error e => (.error (dieF "Error fetching caller id" e), s1)
  | .ok arn => (.ok arn, s1)

/-- `getTokenCode` (lines 30-44): no prompt and no code when the serial is
empty; otherwise prompt, read one line (fatal on read error) and return it
trimmed of spaces, carriage returns and newlines. -/
def getTokenCode (env : Env) (tokenSerialNumber : String) : M (Option String) := fun s =>
  if tokenSerialNumber = "" then (.ok none, s)
  else
    let s1 := record (.mfaPrompt tokenSerialNumber) (tick s)
    match env.readLine s.clock with
    | .error e => (.error (dieF "Error reading mfa token" e), s1)
    | .ok line => (.ok (some (goTrim line)), s1)

/-- `validateSessionToken` (lines 46-51): `GetCallerIdentity` under the given
session options; returns `err == nil`. -/
def validateSessionToken (env : Env) (sess : Sess) : M Bool := fun s =>
  let s1 := record (.callerIdCall sess) (tick s)
  match env.callerId s.clock sess with
  | .error _ => (.ok false, s1)
  | .ok _ => (.ok true, s1)

/-- `getSessionToken` (lines 53-66): obtain the MFA code, call
`GetSessionToken` with the intermediate duration, the configured serial and
that code; fatal on error. -/
def getSessionToken (env : Env) (sess : Sess) (config : SwampConfig) : M Credentials := fun s =>
  match getTokenCode env config.tokenSerialNumber s with
  | (.error f, s1) => (.error f, s1)
  | (.ok code, s1) =>
    let s2 := record
      (.sessionTokenCall sess config.intermediateDuration config.tokenSerialNumber code) (tick s1)
    match env.sessionToken s1.clock sess config.intermediateDuration config.tokenSerialNumber code with
    | .error e => (.error (dieF "Error getting session token" e), s2)
    | .ok cred => (.ok cred, s2)

/-- Modelled from the spec: `ProfileWriter.writeProfile` is repository code
outside `src/` (only its call sites are in `src/swamp.go`).  Per §4.5/§6 the
sink upserts the named entry in the credentials store — overwrite semantics,
no merge, no duplicate entries. -/
def writeProfile (cred : Credentials) (name region : String) : M Unit := fun s =>
  (.ok (), { record (.profileWrite name cred region) s with
             store := upsert s.store name (cred, region) })

/-- Modelled from the spec: `SwampConfig.GetRoleArn` is repository code
outside `src/`.  Per §4.4 the role reference is a pure function of the
Configuration; it is modelled as the resolved `roleArn` field. -/
def getRoleArn (config : SwampConfig) : String :=
  config.roleArn

/-- `ensureSessionTokenProfile` (lines 70-83): validate the intermediate
profile; if valid print the status line (which interpolates `config.profile`),
otherwise issue a session token against the base profile and persist it under
the intermediate profile name. -/
def ensureSessionTokenProfile (env : Env) (config : SwampConfig) : M Unit := fun s =>
  match validateSessionToken env ⟨config.region, config.intermediateProfile, false⟩ s with
  | (.error f, s1) => (.error f, s1)
  | (.ok true, s1) =>
    (.ok (), record
      (.stdout ("Session token for profile " ++ config.profile ++ " is still valid")) s1)
  | (.ok false, s1) =>
    match getSessionToken env ⟨config.region, config.profile, false⟩ config s1 with
    | (.error f, s2) => (.error f, s2)
    | (.ok cred, s2) => writeProfile cred config.intermediateProfile config.region s2

/-- `assumeRole` (lines 85-96): `AssumeRole` with the given role ARN, session
name and duration; fatal on error. -/
def assumeRole (env : Env) (sess : Sess) (roleArn roleSessionName : String)
    (duration : Int) : M Credentials := fun s =>
  let s1 := record (.assumeRoleCall sess roleArn roleSessionName duration) (tick s)
  match env.assumeRole s.clock sess roleArn roleSessionName duration with
  | .error e => (.error (dieF "Error assuming role" e), s1)
  | .ok cred => (.ok cred, s1)

/-- `ensureTargetProfile` (lines 99-108): look up the caller identity, derive
the role session name from the last `/`-separated segment of the ARN, assume
the role with the target duration and persist the result under the target
profile name and the session region. -/
def ensureTargetProfile (env : Env) (config : SwampConfig) (sess : Sess) : M Unit := fun s =>
  match getCallerId env sess s with
  | (.error f, s1) => (.error f, s1)
  | (.ok arn, s1) =>
    match assumeRole env sess (getRoleArn config) (lastSegment arn) config.targetDuration s1 with
    | (.error f, s2) => (.error f, s2)
    | (.ok cred, s2) => writeProfile cred config.targetProfile sess.region s2

/-- The fixed export-descriptor contents written by `writeProfileToFile`
(line 117). -/
def exportContent (config : SwampConfig) : String :=
  "export AWS_PROFILE=" ++ config.targetProfile ++
    "\nunset AWS_ACCESS_KEY_ID\nunset AWS_SECRET_ACCESS_KEY\n"

/-- `writeProfileToFile` (lines 110-118): `os.Create` truncates the export
file (fatal on error) and the fixed three-line descriptor is written. -/
def writeProfileToFile (env : Env) (config : SwampConfig) : M Unit := fun s =>
  match env.createFile s.clock config.exportFile with
  | .error e => (.error (dieF "Error writing target profile to export file" e), tick s)
  | .ok _ =>
    (.ok (), { record (.exportWrite config.exportFile (exportContent config)) (tick s) with
               exportFiles := upsert s.exportFiles config.exportFile (exportContent config) })

/-- The session established in the loop body (lines 141-148): metadata-based
via `session.NewSession()` when `useInstanceProfile` is set, otherwise
profile-based on the region and the selected base profile. -/
def mkSess (env : Env) (config : SwampConfig) (baseProfile : String) : Sess :=
  if config.useInstanceProfile then ⟨env.instanceRegion, "", true⟩
  else ⟨config.region, baseProfile, false⟩

/-- The tail of one loop iteration (lines 141-154): establish the session,
run `ensureTargetProfile`, then write the export file when enabled. -/
def mainIterTail (env : Env) (config : SwampConfig) (baseProfile : String) : M Unit := fun s =>
  match ensureTargetProfile env config (mkSess env config baseProfile) s with
  | (.error f, s1) => (.error f, s1)
  | (.ok _, s1) =>
    if config.exportProfile then writeProfileToFile env config s1 else (.ok (), s1)

/-- One full iteration of the `for` loop body (lines 136-154): the
intermediate hop runs only when an MFA serial is configured. -/
def mainIter (env : Env) (config : SwampConfig) (baseProfile : String) : M Unit := fun s =>
  if config.tokenSerialNumber ≠ "" then
    match ensureSessionTokenProfile env config s with
    | (.error f, s1) => (.error f, s1)
    | (.ok _, s1) => mainIterTail env config baseProfile s1
  else mainIterTail env config baseProfile s

/-- The `for` loop of `main` (lines 135-160), one oracle environment per
iteration; the list length bounds the number of iterations observed.  After a
successful iteration the loop stops if `renew` is unset, and otherwise sleeps
`targetDuration / 2` seconds (Go integer division) before the next iteration. -/
def mainLoop (config : SwampConfig) (baseProfile : String) : List Env → M Unit
  | [] => fun s => (.ok (), s)
  | env :: rest => fun s =>
    match mainIter env config baseProfile s with
    | (.error f, s1) => (.error f, s1)
    | (.ok _, s1) =>
      if !config.renew then (.ok (), s1)
      else mainLoop config baseProfile rest
        (record (.sleep (Int.tdiv config.targetDuration 2)) s1)

/-- `baseProfile` selection in `main` (lines 127-132): the intermediate
profile when an MFA serial is configured, the configured profile otherwise. -/
def baseProfileOf (config : SwampConfig) : String :=
  if config.tokenSerialNumber ≠ "" then config.intermediateProfile else config.profile

/-- `main` after flag parsing and `config.Validate()` (lines 134-160). -/
def mainRun (config : SwampConfig) (envs : List Env) : M Unit :=
  mainLoop config (baseProfileOf config) envs

/-- Exit code of a finished run: 0 on clean termination, the `die` code on a
fatal error. -/
def exitCodeOf : Except Fatal Unit → Nat
  | .ok _ => 0
  | .error f => f.exitCode

/-- Decision of the Renewal Scheduler. -/
inductive SchedAction where
  | repeatAfter (sleepSeconds : Int)
  | terminate
deriving DecidableEq, Repr

/-- The Renewal Scheduler decision, written after the spec's words (§4.6) as
the comparison point for the loop code of lines 156-159: a pure function of
the renew flag and the target duration, with `sleepSeconds` equal to half the
target duration under integer division. -/
def nextAction (renewEnabled : Bool) (targetDurationSeconds : Int) : SchedAction :=
  if renewEnabled then .repeatAfter (Int.tdiv targetDurationSeconds 2) else .terminate

/-- Fixture credentials returned by `GetSessionToken` in the test
environments. -/
def cred1 : Credentials :=
  ⟨"ASIAINTERMEDIATE", "secret1", "token1", 100⟩

/-- Fixture credentials returned by `AssumeRole` in the test environments. -/
def cred2 : Credentials :=
  ⟨"ASIATARGET", "secret2", "token2", 200⟩

/-- Fixture caller-identity ARN. -/
def arn0 : String :=
  "arn:aws:iam::123:user/alice"

/-- Environment in which every provider call succeeds. -/
def env0 : Env where
  callerId := fun _ _ => .ok arn0
  readLine := fun _ => .ok "123456\n"
  sessionToken := fun _ _ _ _ _ => .ok cred1
  assumeRole := fun _ _ _ _ _ => .ok cred2
  createFile := fun _ _ => .ok ()
  instanceRegion := "eu-central-1"

/-- Environment in which the first identity lookup fails (stale intermediate
credentials) and everything afterwards succeeds. -/
def envRenew : Env where
  callerId := fun n _ => if n = 0 then .error "ExpiredToken" else .ok arn0
  readLine := fun _ => .ok "123456\n"
  sessionToken := fun _ _ _ _ _ => .ok cred1
  assumeRole := fun _ _ _ _ _ => .ok cred2
  createFile := fun _ _ => .ok ()
  instanceRegion := "eu-central-1"

/-- Environment of `envRenew` in which the role assumption is denied. -/
def envDeny : Env where
  callerId := fun n _ => if n = 0 then .error "ExpiredToken" else .ok arn0
  readLine := fun _ => .ok "123456\n"
  sessionToken := fun _ _ _ _ _ => .ok cred1
  assumeRole := fun _ _ _ _ _ => .error "AccessDenied"
  createFile := fun _ _ => .ok ()
  instanceRegion := "eu-central-1"

/-- Environment whose operator types only whitespace at the MFA prompt. -/
def envBlank : Env where
  callerId := fun n _ => if n = 0 then .error "ExpiredToken" else .ok arn0
  readLine := fun _ => .ok "  \r\n"
  sessionToken := fun _ _ _ _ _ => .ok cred1
  assumeRole := fun _ _ _ _ _ => .ok cred2
  createFile := fun _ _ => .ok ()
  instanceRegion := "eu-central-1"

/-- Fixture configuration: no MFA serial, single pass, no export. -/
def cfg0 : SwampConfig where
  targetProfile := "target"
  intermediateProfile := "session-token"
  profile := "default"
  region := "eu-west-1"
  tokenSerialNumber := ""
  intermediateDuration := 43200
  targetDuration := 3600
  roleArn := "arn:aws:iam::123:role/admin"
  renew := false
  exportProfile := false
  exportFile := "/tmp/out"
  useInstanceProfile := false

/-- Fixture configuration with an MFA device configured. -/
def cfgMfa : SwampConfig :=
  { cfg0 with tokenSerialNumber := "arn:aws:iam::123:mfa/alice" }

/-- Fixture configuration with MFA and the renew loop enabled. -/
def cfgRenew : SwampConfig :=
  { cfgMfa with renew := true }

/-- Fixture configuration using the host-assigned (instance) identity. -/
def cfgInstance : SwampConfig :=
  { cfg0 with useInstanceProfile := true }

/-- Fixture configuration with the export descriptor enabled. -/
def cfgExport : SwampConfig :=
  { cfg0 with exportProfile := true }

/-- Empty initial state. -/
def st0 : St :=
  ⟨[], [], [], 0⟩

/-! ### Helper lemmas about the store, splitting and trimming -/

theorem lookup_upsert_self {β : Type} (l : List (String × β)) (k : String) (v : β) :
    lookupP k (upsert l k v) = some v := by
  simp [upsert, lookupP]

theorem lookup_filter_ne {β : Type} (l : List (String × β)) (k k' : String) (h : k' ≠ k) :
    lookupP k' (l.filter (fun p => p.1 ≠ k)) = lookupP k' l := by
  induction l with
  | nil => rfl
  | cons a t ih =>
    rcases a with ⟨a1, a2⟩
    by_cases hak : a1 = k
    · have h1 : List.filter (fun p => p.1 ≠ k) ((a1, a2) :: t)
          = List.filter (fun p => p.1 ≠ k) t := by
        rw [List.filter_cons]
        simp [hak]
      have hk'a : a1 ≠ k' := by
        rw [hak]
        exact fun he => h he.symm
      rw [h1, ih]
      simp [lookupP, hk'a]
    · have h1 : List.filter (fun p => p.1 ≠ k) ((a1, a2) :: t)
          = (a1, a2) :: List.filter (fun p => p.1 ≠ k) t := by
        rw [List.filter_cons]
        simp [hak]
      rw [h1]
      by_cases hk'a : a1 = k'
      · simp [lookupP, hk'a]
      · simp only [lookupP, if_neg hk'a]
        exact ih

theorem lookup_upsert_ne {β : Type} (l : List (String × β)) (k k' : String) (v : β)
    (h : k' ≠ k) : lookupP k' (upsert l k v) = lookupP k' l := by
  have hk : k ≠ k' := fun he => h he.symm
  show lookupP k' ((k, v) :: l.filter (fun p => p.1 ≠ k)) = lookupP k' l
  rw [lookupP, if_neg hk]
  exact lookup_filter_ne l k k' h

theorem splitSlash_ne_nil (l : List Char) : splitSlash l ≠ [] := by
  cases l with
  | nil => simp [splitSlash]
  | cons c cs =>
    by_cases hc : c = '/'
    · simp [splitSlash, hc]
    · simp only [splitSlash, hc, if_false]
      cases h : splitSlash cs <;> simp

theorem splitSlash_no_slash (l : List Char) (h : '/' ∉ l) : splitSlash l = [l] := by
  induction l with
  | nil => rfl
  | cons c cs ih =>
    have hc : c ≠ '/' := by
      intro he
      exact h (he ▸ List.mem_cons_self c cs)
    have hcs : '/' ∉ cs := fun hm => h (List.mem_cons_of_mem c hm)
    simp [splitSlash, hc, ih hcs]

theorem splitSlash_append (xs ys : List Char) :
    ∃ p pre, splitSlash (xs ++ '/' :: ys) = (p :: pre) ++ splitSlash ys := by
  induction xs with
  | nil => exact ⟨[], [], rfl⟩
  | cons c xs ih =>
    rcases ih with ⟨p, pre, hp⟩
    by_cases hc : c = '/'
    · refine ⟨[], p :: pre, ?_⟩
      simp [splitSlash, hc, hp]
    · refine ⟨c :: p, pre, ?_⟩
      simp [splitSlash, hc, hp]

theorem getLastD_append_cons {α : Type} (l1 : List α) (b : α) (l2 : List α) (d : α) :
    (l1 ++ b :: l2).getLastD d = (b :: l2).getLastD d := by
  induction l1 generalizing d with
  | nil => rfl
  | cons a l1 ih =>
    rw [List.cons_append, List.getLastD_cons, ih a, List.getLastD_cons, List.getLastD_cons]

theorem lastSegment_append (xs ys : List Char) (h : '/' ∉ ys) :
    lastSegment ⟨xs ++ '/' :: ys⟩ = ⟨ys⟩ := by
  rcases splitSlash_append xs ys with ⟨p, pre, hp⟩
  have hys : splitSlash ys = [ys] := splitSlash_no_slash ys h
  simp only [lastSegment, hp, hys]
  have h2 : (p :: (pre ++ [ys])).getLastD [] = ys := by
    rw [List.getLastD_cons, getLastD_append_cons pre ys [] p]
    rfl
  exact congrArg (fun l => String.mk l) h2

theorem lastSegment_no_slash (t : String) (h : '/' ∉ t.data) : lastSegment t = t := by
  simp [lastSegment, splitSlash_no_slash t.data h]

theorem goTrim_all_cut (line : String) (h : ∀ c ∈ line.data, isCut c = true) :
    goTrim line = "" := by
  have h1 : line.data.dropWhile isCut = [] := List.dropWhile_eq_nil_iff.2 h
  simp [goTrim, h1]

theorem string_append_cancel (p a b q : String) (h : a ≠ b) :
    p ++ a ++ q ≠ p ++ b ++ q := by
  intro he
  apply h
  have hd : p.data ++ a.data ++ q.data = p.data ++ b.data ++ q.data := by
    have := congrArg String.data he
    simpa [String.data_append] using this
  have hd2 : a.data = b.data :=
    List.append_cancel_left (List.append_cancel_right hd)
  cases a
  cases b
  exact congrArg (fun l => String.mk l) hd2

theorem mainIterTail_ok (env : Env) (config : SwampConfig) (bp : String) (s s1 : St)
    (h : mainIterTail env config bp s = (.ok (), s1)) :
    ∃ arn credT,
      env.callerId s.clock (mkSess env config bp) = .ok arn ∧
      env.assumeRole (s.clock + 1) (mkSess env config bp) (getRoleArn config) (lastSegment arn)
        config.targetDuration = .ok credT ∧
      s1.store = upsert s.store config.targetProfile (credT, (mkSess env config bp).region) ∧
      Event.profileWrite config.targetProfile credT (mkSess env config bp).region ∈ s1.events ∧
      (∀ e ∈ s.events, e ∈ s1.events) := by
  simp only [mainIterTail, ensureTargetProfile, getCallerId, assumeRole, writeProfile,
    writeProfileToFile, record, tick] at h
  cases hc : env.callerId s.clock (mkSess env config bp) with
  | error e => simp [hc] at h
  | ok arn =>
    simp only [hc] at h
    cases har : env.assumeRole (s.clock + 1) (mkSess env config bp) (getRoleArn config)
        (lastSegment arn) config.targetDuration with
    | error e => simp [har] at h
    | ok credT =>
      simp only [har] at h
      by_cases hexp : config.exportProfile
      · rw [if_pos hexp] at h
        cases hcf : env.createFile (s.clock + 1 + 1) config.exportFile with
        | error e => simp [hcf] at h
        | ok u =>
          cases u
          simp only [hcf] at h
          injection h with h1 h2
          subst h2
          refine ⟨arn, credT, rfl, har, rfl, ?_, ?_⟩
          · simp
          · intro e he
            simp [he]
      · rw [if_neg hexp] at h
        injection h with h1 h2
        subst h2
        refine ⟨arn, credT, rfl, har, rfl, ?_, ?_⟩
        · simp
        · intro e he
          simp [he]

theorem mainIterTail_events (env : Env) (config : SwampConfig) (bp : String) (s : St) :
    ∀ e ∈ (mainIterTail env config bp s).2.events, e ∈ s.events ∨
      e = Event.callerIdCall (mkSess env config bp) ∨
      (∃ rn sn d, e = Event.assumeRoleCall (mkSess env config bp) rn sn d) ∨
      (∃ n c r, e = Event.profileWrite n c r) ∨
      (∃ p c, e = Event.exportWrite p c) := by
  intro e he
  simp only [mainIterTail, ensureTargetProfile, getCallerId, assumeRole, writeProfile,
    writeProfileToFile, record, tick] at he
  cases hc : env.callerId s.clock (mkSess env config bp) with
  | error e2 =>
    simp only [hc] at he
    simp only [List.mem_append, List.mem_singleton] at he
    rcases he with he | he
    · exact Or.inl he
    · exact Or.inr (Or.inl he)
  | ok arn =>
    simp only [hc] at he
    cases har : env.assumeRole (s.clock + 1) (mkSess env config bp) (getRoleArn config)
        (lastSegment arn) config.targetDuration with
    | error e2 =>
      simp only [har] at he
      simp only [List.mem_append, List.mem_singleton] at he
      rcases he with (he | he) | he
      · exact Or.inl he
      · exact Or.inr (Or.inl he)
      · exact Or.inr (Or.inr (Or.inl ⟨_, _, _, he⟩))
    | ok credT =>
      simp only [har] at he
      by_cases hexp : config.exportProfile
      · rw [if_pos hexp] at he
        cases hcf : env.createFile (s.clock + 1 + 1) config.exportFile with
        | error e2 =>
          simp only [hcf] at he
          simp only [List.mem_append, List.mem_singleton] at he
          rcases he with ((he | he) | he) | he
          · exact Or.inl he
          · exact Or.inr (Or.inl he)
          · exact Or.inr (Or.inr (Or.inl ⟨_, _, _, he⟩))
          · exact Or.inr (Or.inr (Or.inr (Or.inl ⟨_, _, _, he⟩)))
        | ok u =>
          cases u
          simp only [hcf] at he
          simp only [List.mem_append, List.mem_singleton] at he
          rcases he with (((he | he) | he) | he) | he
          · exact Or.inl he
          · exact Or.inr (Or.inl he)
          · exact Or.inr (Or.inr (Or.inl ⟨_, _, _, he⟩))
          · exact Or.inr (Or.inr (Or.inr (Or.inl ⟨_, _, _, he⟩)))
          · exact Or.inr (Or.inr (Or.inr (Or.inr ⟨_, _, he⟩)))
      · rw [if_neg hexp] at he
        simp only [List.mem_append, List.mem_singleton] at he
        rcases he with ((he | he) | he) | he
        · exact Or.inl he
        · exact Or.inr (Or.inl he)
        · exact Or.inr (Or.inr (Or.inl ⟨_, _, _, he⟩))
        · exact Or.inr (Or.inr (Or.inr (Or.inl ⟨_, _, _, he⟩)))

theorem ensureSessionTokenProfile_invalid (config : SwampConfig) (env : Env) (s : St)
    (er line : String) (credI : Credentials)
    (hser : config.tokenSerialNumber ≠ "")
    (hv : env.callerId s.clock ⟨config.region, config.intermediateProfile, false⟩ = .error er)
    (hl : env.readLine (s.clock + 1) = .ok line)
    (ht : env.sessionToken (s.clock + 2) ⟨config.region, config.profile, false⟩
        config.intermediateDuration config.tokenSerialNumber (some (goTrim line)) = .ok credI) :
    ensureSessionTokenProfile env config s =
      (.ok (), { record (.profileWrite config.intermediateProfile credI config.region)
          (record (.sessionTokenCall ⟨config.region, config.profile, false⟩
              config.intermediateDuration config.tokenSerialNumber (some (goTrim line)))
            (tick (record (.mfaPrompt config.tokenSerialNumber)
              (tick (record (.callerIdCall ⟨config.region, config.intermediateProfile, false⟩)
                (tick s)))))) with
        store := upsert s.store config.intermediateProfile (credI, config.region) }) := by
  simp [ensureSessionTokenProfile, validateSessionToken, getSessionToken, getTokenCode,
    writeProfile, record, tick, hv, hl, ht, hser]

theorem validate_no_error (env : Env) (sess : Sess) (s : St) (f : Fatal) (s1 : St)
    (h : validateSessionToken env sess s = (.error f, s1)) : False := by
  unfold validateSessionToken at h
  split at h <;> simp at h

theorem getTokenCode_fatal (env : Env) (ser : String) (s : St) (f : Fatal) (s1 : St)
    (h : getTokenCode env ser s = (.error f, s1)) : f.exitCode = 1 := by
  unfold getTokenCode at h
  split at h
  · simp at h
  · split at h
    · injection h with h1 h2
      injection h1 with h1
      subst h1
      rfl
    · simp at h

theorem getSessionToken_fatal (env : Env) (sess : Sess) (config : SwampConfig) (s : St)
    (f : Fatal) (s1 : St)
    (h : getSessionToken env sess config s = (.error f, s1)) : f.exitCode = 1 := by
  unfold getSessionToken at h
  split at h
  · rename_i f1 s2 hg
    injection h with h1 h2
    injection h1 with h1
    subst h1
    exact getTokenCode_fatal env _ s f1 s2 hg
  · rename_i code s2 hg
    split at h
    · injection h with h1 h2
      injection h1 with h1
      subst h1
      rfl
    · simp at h

theorem ensureSessionTokenProfile_fatal (env : Env) (config : SwampConfig) (s : St)
    (f : Fatal) (s1 : St)
    (h : ensureSessionTokenProfile env config s = (.error f, s1)) : f.exitCode = 1 := by
  unfold ensureSessionTokenProfile at h
  split at h
  · rename_i f1 s2 hval
    injection h with h1 h2
    injection h1 with h1
    subst h1
    exact absurd hval (fun hv => validate_no_error env _ s f1 s2 hv)
  · simp at h
  · rename_i s2 hval
    rcases hg : getSessionToken env ⟨config.region, config.profile, false⟩ config s2
      with ⟨r1, s3⟩
    rw [hg] at h
    cases r1 with
    | error f1 =>
      injection h with h1 h2
      injection h1 with h1
      subst h1
      exact getSessionToken_fatal env _ config s2 f1 s3 hg
    | ok cred => simp [writeProfile] at h

theorem ensureTargetProfile_fatal (env : Env) (config : SwampConfig) (sess : Sess) (s : St)
    (f : Fatal) (s1 : St)
    (h : ensureTargetProfile env config sess s = (.error f, s1)) : f.exitCode = 1 := by
  simp only [ensureTargetProfile, getCallerId, assumeRole, writeProfile, record, tick] at h
  cases hc : env.callerId s.clock sess with
  | error e =>
    simp only [hc] at h
    injection h with h1 h2
    injection h1 with h1
    subst h1
    rfl
  | ok arn =>
    simp only [hc] at h
    cases har : env.assumeRole (s.clock + 1) sess (getRoleArn config) (lastSegment arn)
        config.targetDuration with
    | error e =>
      simp only [har] at h
      injection h with h1 h2
      injection h1 with h1
      subst h1
      rfl
    | ok cred =>
      simp only [har] at h
      simp at h

theorem writeProfileToFile_fatal (env : Env) (config : SwampConfig) (s : St)
    (f : Fatal) (s1 : St)
    (h : writeProfileToFile env config s = (.error f, s1)) : f.exitCode = 1 := by
  unfold writeProfileToFile at h
  split at h
  · injection h with h1 h2
    injection h1 with h1
    subst h1
    rfl
  · simp at h

theorem mainIterTail_fatal (env : Env) (config : SwampConfig) (bp : String) (s : St)
    (f : Fatal) (s1 : St)
    (h : mainIterTail env config bp s = (.error f, s1)) : f.exitCode = 1 := by
  unfold mainIterTail at h
  split at h
  · rename_i f1 s2 htgt
    injection h with h1 h2
    injection h1 with h1
    subst h1
    exact ensureTargetProfile_fatal env config _ s f1 s2 htgt
  · rename_i u s2 htgt
    split at h
    · exact writeProfileToFile_fatal env config s2 f s1 h
    · simp at h

theorem mainIter_fatal (env : Env) (config : SwampConfig) (bp : String) (s : St)
    (f : Fatal) (s1 : St)
    (h : mainIter env config bp s = (.error f, s1)) : f.exitCode = 1 := by
  unfold mainIter at h
  split at h
  · split at h
    · rename_i f1 s2 hens
      injection h with h1 h2
      injection h1 with h1
      subst h1
      exact ensureSessionTokenProfile_fatal env config s f1 s2 hens
    · exact mainIterTail_fatal env config bp _ f s1 h
  · exact mainIterTail_fatal env config bp s f s1 h

theorem mainLoop_fatal (config : SwampConfig) (bp : String) :
    ∀ (envs : List Env) (s : St) (f : Fatal) (s1 : St),
      mainLoop config bp envs s = (.error f, s1) → f.exitCode = 1 := by
  intro envs
  induction envs with
  | nil =>
    intro s f s1 h
    simp [mainLoop] at h
  | cons env rest ih =>
    intro s f s1 h
    unfold mainLoop at h
    split at h
    · rename_i f1 s2 hmi
      injection h with h1 h2
      injection h1 with h1
      subst h1
      exact mainIter_fatal env config bp s f1 s2 hmi
    · split at h
      · simp at h
      · exact ih _ f s1 h

theorem mainIterTail_export (env : Env) (config : SwampConfig) (bp : String) (s s1 : St)
    (hexp : config.exportProfile = true)
    (h : mainIterTail env config bp s = (.ok (), s1)) :
    lookupP config.exportFile s1.exportFiles = some (exportContent config) := by
  unfold mainIterTail at h
  split at h
  · simp at h
  · rw [if_pos hexp] at h
    unfold writeProfileToFile at h
    split at h
    · simp at h
    · injection h with h1 h2
      subst h2
      exact lookup_upsert_self _ _ _

theorem mainIter_export (env : Env) (config : SwampConfig) (bp : String) (s s1 : St)
    (hexp : config.exportProfile = true)
    (h : mainIter env config bp s = (.ok (), s1)) :
    lookupP config.exportFile s1.exportFiles = some (exportContent config) := by
  unfold mainIter at h
  split at h
  · split at h
    · simp at h
    · exact mainIterTail_export env config bp _ s1 hexp h
  · exact mainIterTail_export env config bp s s1 hexp h

theorem mainLoop_export (config : SwampConfig) (bp : String) :
    ∀ (envs : List Env) (s s1 : St), envs ≠ [] → config.exportProfile = true →
      mainLoop config bp envs s = (.ok (), s1) →
      lookupP config.exportFile s1.exportFiles = some (exportContent config) := by
  intro envs
  induction envs with
  | nil => intro s s1 hne _ _; exact absurd rfl hne
  | cons env rest ih =>
    intro s s1 _ hexp h
    unfold mainLoop at h
    split at h
    · simp at h
    · rename_i u s2 hmi
      cases u
      by_cases hr : config.renew
      · rw [if_neg (by simp [hr])] at h
        cases rest with
        | nil =>
          unfold mainLoop at h
          injection h with h1 h2
          subst h2
          have := mainIter_export env config bp s s2 hexp hmi
          simpa [record] using this
        | cons e2 r2 =>
          exact ih _ s1 (by simp) hexp h
      · rw [if_pos (by simp [hr])] at h
        injection h with h1 h2
        subst h2
        exact mainIter_export env config bp s s2 hexp hmi

theorem mainIter_no_mfa (env : Env) (config : SwampConfig) (bp : String) (s : St)
    (hser : config.tokenSerialNumber = "") :
    mainIter env config bp s = mainIterTail env config bp s := by
  unfold mainIter
  rw [if_neg (by simp [hser])]

theorem mainIter_events_no_mfa (env : Env) (config : SwampConfig) (bp : String) (s : St)
    (hser : config.tokenSerialNumber = "") :
    ∀ e ∈ (mainIter env config bp s).2.events, e ∈ s.events ∨
      e = Event.callerIdCall (mkSess env config bp) ∨
      (∃ rn sn d, e = Event.assumeRoleCall (mkSess env config bp) rn sn d) ∨
      (∃ n c r, e = Event.profileWrite n c r) ∨
      (∃ p c, e = Event.exportWrite p c) := by
  rw [mainIter_no_mfa env config bp s hser]
  exact mainIterTail_events env config bp s

theorem mainLoop_events_no_mfa (config : SwampConfig) (bp : String)
    (hser : config.tokenSerialNumber = "") :
    ∀ (envs : List Env) (s : St), ∀ e ∈ (mainLoop config bp envs s).2.events,
      e ∈ s.events ∨
      (∃ env2 : Env, e = Event.callerIdCall (mkSess env2 config bp)) ∨
      (∃ env2 : Env, ∃ rn sn : String, ∃ d : Int,
        e = Event.assumeRoleCall (mkSess env2 config bp) rn sn d) ∨
      (∃ n : String, ∃ c : Credentials, ∃ r : String, e = Event.profileWrite n c r) ∨
      (∃ p c : String, e = Event.exportWrite p c) ∨
      (∃ t : Int, e = Event.sleep t) := by
  intro envs
  induction envs with
  | nil =>
    intro s e he
    simp only [mainLoop] at he
    exact Or.inl he
  | cons env rest ih =>
    intro s e he
    simp only [mainLoop] at he
    split at he
    · rename_i f s1 hmi
      have hstep : ∀ e2 ∈ s1.events, e2 ∈ s.events ∨
          (∃ env2 : Env, e2 = Event.callerIdCall (mkSess env2 config bp)) ∨
          (∃ env2 : Env, ∃ rn sn : String, ∃ d : Int,
            e2 = Event.assumeRoleCall (mkSess env2 config bp) rn sn d) ∨
          (∃ n : String, ∃ c : Credentials, ∃ r : String, e2 = Event.profileWrite n c r) ∨
          (∃ p c : String, e2 = Event.exportWrite p c) ∨
          (∃ t : Int, e2 = Event.sleep t) := by
        intro e2 he2
        have h1 := mainIter_events_no_mfa env config bp s hser e2 (by rw [hmi]; exact he2)
        rcases h1 with h1 | h1 | h1 | h1 | h1
        · exact Or.inl h1
        · exact Or.inr (Or.inl ⟨env, h1⟩)
        · rcases h1 with ⟨rn, sn, d, h1⟩
          exact Or.inr (Or.inr (Or.inl ⟨env, rn, sn, d, h1⟩))
        · exact Or.inr (Or.inr (Or.inr (Or.inl h1)))
        · exact Or.inr (Or.inr (Or.inr (Or.inr (Or.inl h1))))
      exact hstep e he
    · rename_i u s1 hmi
      have hstep : ∀ e2 ∈ s1.events, e2 ∈ s.events ∨
          (∃ env2 : Env, e2 = Event.callerIdCall (mkSess env2 config bp)) ∨
          (∃ env2 : Env, ∃ rn sn : String, ∃ d : Int,
            e2 = Event.assumeRoleCall (mkSess env2 config bp) rn sn d) ∨
          (∃ n : String, ∃ c : Credentials, ∃ r : String, e2 = Event.profileWrite n c r) ∨
          (∃ p c : String, e2 = Event.exportWrite p c) ∨
          (∃ t : Int, e2 = Event.sleep t) := by
        intro e2 he2
        have h1 := mainIter_events_no_mfa env config bp s hser e2 (by rw [hmi]; exact he2)
        rcases h1 with h1 | h1 | h1 | h1 | h1
        · exact Or.inl h1
        · exact Or.inr (Or.inl ⟨env, h1⟩)
        · rcases h1 with ⟨rn, sn, d, h1⟩
          exact Or.inr (Or.inr (Or.inl ⟨env, rn, sn, d, h1⟩))
        · exact Or.inr (Or.inr (Or.inr (Or.inl h1)))
        · exact Or.inr (Or.inr (Or.inr (Or.inr (Or.inl h1))))
      by_cases hr : config.renew
      · rw [if_neg (by simp [hr])] at he
        have h2 := ih (record (.sleep (Int.tdiv config.targetDuration 2)) s1) e he
        rcases h2 with h2 | h2
        · simp only [record, List.mem_append, List.mem_singleton] at h2
          rcases h2 with h2 | h2
          · exact hstep e h2
          · exact Or.inr (Or.inr (Or.inr (Or.inr (Or.inr ⟨_, h2⟩))))
        · exact Or.inr h2
      · rw [if_pos (by simp [hr])] at he
        exact hstep e he

/-! ### Claim theorems -/

/-- C5: the Renewal Scheduler decision is a pure function of the renew flag
and the target duration: `nextAction false d = terminate` for every duration
and `nextAction true 3600 = repeatAfter 1800`; the loop code realises it —
with renew disabled the loop ends after the one iteration, and with renew
enabled a successful iteration is followed by a sleep of
`targetDuration / 2` seconds (Go integer division) and the next iteration. -/
theorem C5_scheduler (config : SwampConfig) (bp : String) (env : Env)
    (rest : List Env) (s : St) :
    (∀ d : Int, nextAction false d = .terminate) ∧
    nextAction true 3600 = .repeatAfter 1800 ∧
    (config.renew = false →
      mainLoop config bp (env :: rest) s = mainIter env config bp s) ∧
    (config.renew = true → ∀ s1 : St, mainIter env config bp s = (.ok (), s1) →
      nextAction true config.targetDuration
        = .repeatAfter (Int.tdiv config.targetDuration 2) ∧
      mainLoop config bp (env :: rest) s
        = mainLoop config bp rest (record (.sleep (Int.tdiv config.targetDuration 2)) s1)) := by
  refine ⟨fun d => rfl, by decide, ?_, ?_⟩
  · intro h
    rcases hmi : mainIter env config bp s with ⟨r, s1⟩
    cases r with
    | error f => simp [mainLoop, hmi]
    | ok u =>
      cases u
      simp [mainLoop, hmi, h]
  · intro h s1 hmi
    exact ⟨rfl, by simp [mainLoop, hmi, h]⟩

/-- C5 witness: with renew disabled (`cfg0`) the loop is the single
iteration, and `nextAction true 3600 = repeatAfter 1800`. -/
theorem C5_scheduler_witness :
    mainLoop cfg0 "default" [env0] st0 = mainIter env0 cfg0 "default" st0 ∧
    nextAction true 3600 = SchedAction.repeatAfter 1800 :=
  ⟨(C5_scheduler cfg0 "default" env0 [] st0).2.2.1 rfl,
   (C5_scheduler cfg0 "default" env0 [] st0).2.1⟩

/-- C6: the Credential Validator returns `true` iff the identity lookup with
the given session options succeeds; any error yields `false`; it never
raises (the result is always `.ok`), never mutates the credentials store or
the export files, and never prompts for MFA. -/
theorem C6_validator (env : Env) (sess : Sess) (s : St) :
    ∃ b s1, validateSessionToken env sess s = (.ok b, s1) ∧
      (b = true ↔ ∃ arn, env.callerId s.clock sess = .ok arn) ∧
      s1.store = s.store ∧ s1.exportFiles = s.exportFiles ∧
      (∀ serial, Event.mfaPrompt serial ∈ s1.events → Event.mfaPrompt serial ∈ s.events) := by
  cases hc : env.callerId s.clock sess with
  | error e =>
    refine ⟨false, record (.callerIdCall sess) (tick s), ?_, ?_, rfl, rfl, ?_⟩
    · simp [validateSessionToken, hc]
    · simp [hc]
    · intro serial hm
      simp only [record, tick, List.mem_append, List.mem_singleton] at hm
      rcases hm with hm | hm
      · exact hm
      · cases hm
  | ok arn =>
    refine ⟨true, record (.callerIdCall sess) (tick s), ?_, ?_, rfl, rfl, ?_⟩
    · simp [validateSessionToken, hc]
    · simp [hc]
    · intro serial hm
      simp only [record, tick, List.mem_append, List.mem_singleton] at hm
      rcases hm with hm | hm
      · exact hm
      · cases hm

/-- C9: when the intermediate session token is found still valid, the status
message printed interpolates `config.profile` (the base profile), not
`config.intermediateProfile` whose credentials were validated; whenever the
two names differ the printed line differs from the intermediate-profile
variant. -/
theorem C9_status_message (config : SwampConfig) (env : Env) (s : St) (arn : String)
    (hv : env.callerId s.clock ⟨config.region, config.intermediateProfile, false⟩ = .ok arn) :
    ensureSessionTokenProfile env config s =
      (.ok (), record
        (.stdout ("Session token for profile " ++ config.profile ++ " is still valid"))
        (record (.callerIdCall ⟨config.region, config.intermediateProfile, false⟩) (tick s))) ∧
    (config.profile ≠ config.intermediateProfile →
      "Session token for profile " ++ config.profile ++ " is still valid"
        ≠ "Session token for profile " ++ config.intermediateProfile ++ " is still valid") := by
  constructor
  · simp [ensureSessionTokenProfile, validateSessionToken, hv]
  · intro hne
    exact string_append_cancel "Session token for profile " config.profile
      config.intermediateProfile " is still valid" hne

/-- C9 witness: concrete valid-intermediate run with distinct profile
names. -/
theorem C9_status_message_witness :
    ensureSessionTokenProfile env0 cfgMfa st0 =
      (.ok (), record
        (.stdout ("Session token for profile " ++ cfgMfa.profile ++ " is still valid"))
        (record (.callerIdCall ⟨cfgMfa.region, cfgMfa.intermediateProfile, false⟩) (tick st0))) ∧
    "Session token for profile " ++ cfgMfa.profile ++ " is still valid"
      ≠ "Session token for profile " ++ cfgMfa.intermediateProfile ++ " is still valid" :=
  ⟨(C9_status_message cfgMfa env0 st0 arn0 rfl).1,
   (C9_status_message cfgMfa env0 st0 arn0 rfl).2 (by decide)⟩

/-- C10: a whitespace-only operator line (spaces, carriage returns,
newlines) trims to the empty string; the prompt returns `some ""` (a present
empty code, not absence), and the session-token call is still made with that
empty code — there is no local non-emptiness check before contacting the
provider. -/
theorem C10_blank_mfa (config : SwampConfig) (env : Env) (sess : Sess) (s : St) (line : String)
    (hser : config.tokenSerialNumber ≠ "")
    (hline : env.readLine s.clock = .ok line)
    (hws : ∀ c ∈ line.data, isCut c = true) :
    goTrim line = "" ∧
    getTokenCode env config.tokenSerialNumber s
      = (.ok (some ""), record (.mfaPrompt config.tokenSerialNumber) (tick s)) ∧
    Event.sessionTokenCall sess config.intermediateDuration config.tokenSerialNumber (some "")
      ∈ (getSessionToken env sess config s).2.events := by
  have hg : goTrim line = "" := goTrim_all_cut line hws
  refine ⟨hg, ?_, ?_⟩
  · simp [getTokenCode, hser, hline, hg]
  · simp only [getSessionToken, getTokenCode, if_neg (by simpa using hser), hline, hg]
    split <;> simp [record, tick]

/-- C10 witness: the operator types `"  \r\n"`; the code passed to the
provider is `some ""`. -/
theorem C10_blank_mfa_witness :
    goTrim "  \r\n" = "" ∧
    getTokenCode envBlank cfgMfa.tokenSerialNumber st0
      = (.ok (some ""), record (.mfaPrompt cfgMfa.tokenSerialNumber) (tick st0)) ∧
    Event.sessionTokenCall ⟨"eu-west-1", "default", false⟩ cfgMfa.intermediateDuration
        cfgMfa.tokenSerialNumber (some "")
      ∈ (getSessionToken envBlank ⟨"eu-west-1", "default", false⟩ cfgMfa st0).2.events :=
  C10_blank_mfa cfgMfa envBlank ⟨"eu-west-1", "default", false⟩ st0 "  \r\n"
    (by decide) rfl (by decide)

/-- C8: the role session name passed to `AssumeRole` is `lastSegment` of the
caller identity ARN; `lastSegment` returns the substring after the last `/`
(the whole string when no `/` occurs), and on
`"arn:aws:iam::123:user/alice"` it returns `"alice"`. -/
theorem C8_session_name (config : SwampConfig) (env : Env) (sess : Sess) (s : St) (arn : String)
    (hid : env.callerId s.clock sess = .ok arn) :
    Event.assumeRoleCall sess (getRoleArn config) (lastSegment arn) config.targetDuration
      ∈ (ensureTargetProfile env config sess s).2.events ∧
    (∀ t : String, '/' ∉ t.data → lastSegment t = t) ∧
    (∀ xs ys : List Char, '/' ∉ ys → lastSegment ⟨xs ++ '/' :: ys⟩ = ⟨ys⟩) ∧
    lastSegment "arn:aws:iam::123:user/alice" = "alice" := by
  refine ⟨?_, lastSegment_no_slash, lastSegment_append, by decide⟩
  simp only [ensureTargetProfile, getCallerId, hid, assumeRole, record, tick]
  cases har : env.assumeRole (s.clock + 1) sess (getRoleArn config) (lastSegment arn)
      config.targetDuration with
  | error e => simp [har, record, tick]
  | ok cred => simp [har, writeProfile, record, tick]

/-- C7: with export enabled, after any successful run with at least one
iteration the export file holds exactly the fixed three-line descriptor —
the profile-selection line for the target profile and the two lines clearing
the static-key variables — whatever its prior content was and however many
iterations ran; the descriptor contains exactly three newlines when the
target profile name contains none. -/
theorem C7_export (config : SwampConfig) (envs : List Env) (s s1 : St)
    (hexp : config.exportProfile = true) (hne : envs ≠ [])
    (h : mainRun config envs s = (.ok (), s1)) :
    lookupP config.exportFile s1.exportFiles = some (exportContent config) ∧
    exportContent config = "export AWS_PROFILE=" ++ config.targetProfile ++
      "\nunset AWS_ACCESS_KEY_ID\nunset AWS_SECRET_ACCESS_KEY\n" ∧
    ('\n' ∉ config.targetProfile.data → (exportContent config).data.count '\n' = 3) := by
  refine ⟨mainLoop_export config (baseProfileOf config) envs s s1 hne hexp h, rfl, ?_⟩
  intro hnl
  have hc : config.targetProfile.data.count '\n' = 0 := List.count_eq_zero.2 hnl
  have h1 : ("export AWS_PROFILE=" : String).data.count '\n' = 0 := by decide
  have h2 : ("\nunset AWS_ACCESS_KEY_ID\nunset AWS_SECRET_ACCESS_KEY\n" : String).data.count '\n'
      = 3 := by decide
  unfold exportContent
  rw [String.data_append, String.data_append, List.count_append, List.count_append, hc, h1, h2]

/-- C7 witness: a concrete one-iteration export run writes the descriptor. -/
theorem C7_export_witness :
    lookupP cfgExport.exportFile (mainRun cfgExport [env0] st0).2.exportFiles
      = some (exportContent cfgExport) :=
  (C7_export cfgExport [env0] st0 (mainRun cfgExport [env0] st0).2 rfl
    (List.cons_ne_nil env0 []) rfl).1

/-- C1: in a loop iteration with an MFA device configured, if the Validator
finds the intermediate profile valid the iteration adds only the validation
lookup and the status line — no MFA prompt, no session-token issuance — and
proceeds directly to the assume-role tail; otherwise the MFA prompt is shown
with the configured device serial, `IssueSessionToken` is called on the base
profile (`config.profile`, not the intermediate profile) with the
intermediate duration and the trimmed operator code, the returned credentials
are persisted verbatim under the intermediate profile name, and the chain
proceeds to the assume-role tail. -/
theorem C1_intermediate_hop (config : SwampConfig) (env : Env) (bp : String) (s : St)
    (hser : config.tokenSerialNumber ≠ "") :
    (∀ arn, env.callerId s.clock ⟨config.region, config.intermediateProfile, false⟩ = .ok arn →
      mainIter env config bp s =
        mainIterTail env config bp
          (record (.stdout ("Session token for profile " ++ config.profile ++ " is still valid"))
            (record (.callerIdCall ⟨config.region, config.intermediateProfile, false⟩)
              (tick s)))) ∧
    (∀ er line cred,
      env.callerId s.clock ⟨config.region, config.intermediateProfile, false⟩ = .error er →
      env.readLine (s.clock + 1) = .ok line →
      env.sessionToken (s.clock + 2) ⟨config.region, config.profile, false⟩
          config.intermediateDuration config.tokenSerialNumber (some (goTrim line)) = .ok cred →
      mainIter env config bp s =
        mainIterTail env config bp
          { record (.profileWrite config.intermediateProfile cred config.region)
              (record (.sessionTokenCall ⟨config.region, config.profile, false⟩
                  config.intermediateDuration config.tokenSerialNumber (some (goTrim line)))
                (tick (record (.mfaPrompt config.tokenSerialNumber)
                  (tick (record
                    (.callerIdCall ⟨config.region, config.intermediateProfile, false⟩)
                    (tick s)))))) with
            store := upsert s.store config.intermediateProfile (cred, config.region) }) := by
  constructor
  · intro arn hv
    simp [mainIter, hser, ensureSessionTokenProfile, validateSessionToken, hv]
  · intro er line cred hv hl ht
    simp [mainIter, hser, ensureSessionTokenProfile, validateSessionToken, getSessionToken,
      getTokenCode, writeProfile, record, tick, hv, hl, ht]

/-- C1 witness: concrete invalid-then-renewed intermediate hop under
`envRenew`. -/
theorem C1_intermediate_hop_witness :
    mainIter envRenew cfgMfa "session-token" st0 =
      mainIterTail envRenew cfgMfa "session-token"
        { record (.profileWrite cfgMfa.intermediateProfile cred1 cfgMfa.region)
            (record (.sessionTokenCall ⟨cfgMfa.region, cfgMfa.profile, false⟩
                cfgMfa.intermediateDuration cfgMfa.tokenSerialNumber (some (goTrim "123456\n")))
              (tick (record (.mfaPrompt cfgMfa.tokenSerialNumber)
                (tick (record
                  (.callerIdCall ⟨cfgMfa.region, cfgMfa.intermediateProfile, false⟩)
                  (tick st0)))))) with
          store := upsert st0.store cfgMfa.intermediateProfile (cred1, cfgMfa.region) } :=
  (C1_intermediate_hop cfgMfa envRenew "session-token" st0 (by decide)).2
    "ExpiredToken" "123456\n" cred1 rfl rfl rfl

/-- C2 (amended): with an empty MFA device serial the Intermediate states
are never entered in any iteration — the trace contains no MFA prompt and no
session-token issuance, and every identity lookup belongs to the AssumeTarget
step: when the host-identity flag is unset it uses the originally configured
base profile `config.profile`, and when the flag is set it uses the
instance-metadata session (not a profile-based one). -/
theorem C2_no_mfa (config : SwampConfig) (envs : List Env) (s : St)
    (hser : config.tokenSerialNumber = "") :
    ∀ e ∈ (mainRun config envs s).2.events, e ∈ s.events ∨
      ((∀ serial, e ≠ Event.mfaPrompt serial) ∧
       (∀ o d ser c, e ≠ Event.sessionTokenCall o d ser c) ∧
       (∀ o : Sess, e = Event.callerIdCall o →
          (config.useInstanceProfile = false →
            o = ⟨config.region, config.profile, false⟩) ∧
          (config.useInstanceProfile = true → o.fromInstanceMetadata = true))) := by
  intro e he
  have hbp : baseProfileOf config = config.profile := by
    unfold baseProfileOf
    rw [if_neg (by simp [hser])]
  unfold mainRun at he
  have h1 := mainLoop_events_no_mfa config (baseProfileOf config) hser envs s e he
  rcases h1 with h1 | h1 | h1 | h1 | h1 | h1
  · exact Or.inl h1
  · right
    rcases h1 with ⟨env2, h1⟩
    subst h1
    refine ⟨by simp, by simp, ?_⟩
    intro o ho
    injection ho with ho
    subst ho
    constructor
    · intro hinst
      simp [mkSess, hinst, hbp]
    · intro hinst
      simp [mkSess, hinst]
  · right
    rcases h1 with ⟨env2, rn, sn, d, h1⟩
    subst h1
    exact ⟨by simp, by simp, fun o ho => absurd ho (by simp)⟩
  · right
    rcases h1 with ⟨n, c, r, h1⟩
    subst h1
    exact ⟨by simp, by simp, fun o ho => absurd ho (by simp)⟩
  · right
    rcases h1 with ⟨p, c, h1⟩
    subst h1
    exact ⟨by simp, by simp, fun o ho => absurd ho (by simp)⟩
  · right
    rcases h1 with ⟨t, h1⟩
    subst h1
    exact ⟨by simp, by simp, fun o ho => absurd ho (by simp)⟩

/-- C2 witness: in the concrete no-MFA, profile-based run the identity
lookup that actually occurs is no MFA prompt. -/
theorem C2_no_mfa_witness :
    Event.callerIdCall ⟨cfg0.region, cfg0.profile, false⟩ ≠ Event.mfaPrompt "123456" :=
  ((C2_no_mfa cfg0 [env0] st0 rfl (.callerIdCall ⟨cfg0.region, cfg0.profile, false⟩)
      (by decide)).resolve_left (by decide)).1 "123456"

/-- C2 counterexample: the claim "every iteration starts at AssumeTarget
using the originally configured base profile" fails when the host-identity
flag is set: with `cfgInstance` (empty serial, `useInstanceProfile = true`,
base profile "default") the one-iteration run succeeds, but its only
identity lookup runs on the instance-metadata session whose profile is not
the base profile. -/
theorem C2_counterexample :
    cfgInstance.tokenSerialNumber = "" ∧
    cfgInstance.profile = "default" ∧
    (mainRun cfgInstance [env0] st0).1 = .ok () ∧
    (mainRun cfgInstance [env0] st0).2.events
      = [.callerIdCall ⟨"eu-central-1", "", true⟩,
         .assumeRoleCall ⟨"eu-central-1", "", true⟩ "arn:aws:iam::123:role/admin"
           "alice" 3600,
         .profileWrite "target" cred2 "eu-central-1"] ∧
    (∀ o : Sess, Event.callerIdCall o ∈ (mainRun cfgInstance [env0] st0).2.events →
      o.profile ≠ cfgInstance.profile ∧ o.fromInstanceMetadata = true) := by
  have htr : (mainRun cfgInstance [env0] st0).2.events
      = [.callerIdCall ⟨"eu-central-1", "", true⟩,
         .assumeRoleCall ⟨"eu-central-1", "", true⟩ "arn:aws:iam::123:role/admin"
           "alice" 3600,
         .profileWrite "target" cred2 "eu-central-1"] := by decide
  refine ⟨rfl, rfl, rfl, htr, ?_⟩
  intro o ho
  rw [htr] at ho
  simp only [List.mem_cons, List.not_mem_nil, or_false] at ho
  rcases ho with ho | ho | ho
  · injection ho with ho
    subst ho
    exact ⟨by decide, rfl⟩
  · cases ho
  · cases ho

/-- C3: on every successful iteration the credentials persisted under the
target profile name are exactly the `AssumeRole` result (the store maps the
target profile to that very record and the session region), and when the
intermediate renewal branch was taken the credentials written under the
intermediate profile name are exactly the `IssueSessionToken` result — no
field is altered between provider return and sink write. -/
theorem C3_persist_exact (config : SwampConfig) (env : Env) (bp : String) (s s1 : St)
    (h : mainIter env config bp s = (.ok (), s1)) :
    (∃ n arn credT,
      env.callerId n (mkSess env config bp) = .ok arn ∧
      env.assumeRole (n + 1) (mkSess env config bp) (getRoleArn config) (lastSegment arn)
          config.targetDuration = .ok credT ∧
      lookupP config.targetProfile s1.store
        = some (credT, (mkSess env config bp).region)) ∧
    (∀ er, config.tokenSerialNumber ≠ "" →
      env.callerId s.clock ⟨config.region, config.intermediateProfile, false⟩ = .error er →
      ∃ line credI,
        env.readLine (s.clock + 1) = .ok line ∧
        env.sessionToken (s.clock + 2) ⟨config.region, config.profile, false⟩
            config.intermediateDuration config.tokenSerialNumber (some (goTrim line))
          = .ok credI ∧
        Event.profileWrite config.intermediateProfile credI config.region ∈ s1.events ∧
        (config.intermediateProfile ≠ config.targetProfile →
          lookupP config.intermediateProfile s1.store = some (credI, config.region))) := by
  unfold mainIter at h
  by_cases hser : config.tokenSerialNumber ≠ ""
  · rw [if_pos hser] at h
    rcases he : ensureSessionTokenProfile env config s with ⟨r0, s2⟩
    rw [he] at h
    cases r0 with
    | error f => simp at h
    | ok u =>
      cases u
      obtain ⟨arn, credT, hc, har, hst, hmem, hmono⟩ := mainIterTail_ok env config bp s2 s1 h
      constructor
      · refine ⟨s2.clock, arn, credT, hc, har, ?_⟩
        rw [hst]
        exact lookup_upsert_self _ _ _
      · intro er hser2 hv
        cases hrl : env.readLine (s.clock + 1) with
        | error e2 =>
          rw [ensureSessionTokenProfile] at he
          simp [validateSessionToken, getSessionToken, getTokenCode, record, tick,
            hv, hrl, hser] at he
        | ok line =>
          cases hstk : env.sessionToken (s.clock + 2) ⟨config.region, config.profile, false⟩
              config.intermediateDuration config.tokenSerialNumber (some (goTrim line)) with
          | error e2 =>
            rw [ensureSessionTokenProfile] at he
            simp [validateSessionToken, getSessionToken, getTokenCode, record, tick,
              hv, hrl, hstk, hser] at he
          | ok credI =>
            have heq := ensureSessionTokenProfile_invalid config env s er line credI
              hser hv hrl hstk
            rw [he] at heq
            injection heq with heq1 heq2
            refine ⟨line, credI, rfl, hstk, ?_, ?_⟩
            · apply hmono
              rw [heq2]
              simp [record, tick]
            · intro hne
              rw [hst, lookup_upsert_ne _ _ _ _ hne, heq2]
              show lookupP config.intermediateProfile
                (upsert s.store config.intermediateProfile (credI, config.region)) = _
              exact lookup_upsert_self _ _ _
  · rw [if_neg hser] at h
    obtain ⟨arn, credT, hc, har, hst, hmem, hmono⟩ := mainIterTail_ok env config bp s s1 h
    constructor
    · refine ⟨s.clock, arn, credT, hc, har, ?_⟩
      rw [hst]
      exact lookup_upsert_self _ _ _
    · intro er hser2 hv
      exact absurd hser2 hser

/-- C3 witness: concrete renewal run — the store maps the target profile to
exactly the `AssumeRole` result under the session region. -/
theorem C3_persist_exact_witness :
    ∃ n arn credT,
      envRenew.callerId n (mkSess envRenew cfgMfa "session-token") = .ok arn ∧
      envRenew.assumeRole (n + 1) (mkSess envRenew cfgMfa "session-token")
          (getRoleArn cfgMfa) (lastSegment arn) cfgMfa.targetDuration = .ok credT ∧
      lookupP cfgMfa.targetProfile (mainIter envRenew cfgMfa "session-token" st0).2.store
        = some (credT, (mkSess envRenew cfgMfa "session-token").region) :=
  (C3_persist_exact cfgMfa envRenew "session-token" st0
    (mainIter envRenew cfgMfa "session-token" st0).2 rfl).1

/-- C4: a fatal provider error aborts the process with exit code 1 and no
rollback.  Generally, every run ending in an error carries exit code 1; in
the concrete failing scenario — MFA configured, intermediate renewed and
persisted, then `AssumeRole` denied — the run stops at the failed call with
the `die` diagnostic, the freshly written intermediate profile remains in
the store, and the trace ends at the single failed `AssumeRole` attempt (no
retry, no events from later iterations). -/
theorem C4_fatal_abort (config : SwampConfig) (env : Env) (rest : List Env) (s : St)
    (er er2 line arn : String) (credI : Credentials)
    (hser : config.tokenSerialNumber ≠ "")
    (hinst : config.useInstanceProfile = false)
    (hv : env.callerId s.clock ⟨config.region, config.intermediateProfile, false⟩ = .error er)
    (hl : env.readLine (s.clock + 1) = .ok line)
    (ht : env.sessionToken (s.clock + 2) ⟨config.region, config.profile, false⟩
        config.intermediateDuration config.tokenSerialNumber (some (goTrim line)) = .ok credI)
    (ha : env.callerId (s.clock + 3) ⟨config.region, config.intermediateProfile, false⟩
        = .ok arn)
    (hr : env.assumeRole (s.clock + 4) ⟨config.region, config.intermediateProfile, false⟩
        (getRoleArn config) (lastSegment arn) config.targetDuration = .error er2) :
    (∀ (envs2 : List Env) (s2 : St) (f : Fatal) (s3 : St),
        mainRun config envs2 s2 = (.error f, s3) → f.exitCode = 1) ∧
    (mainRun config (env :: rest) s).1 = .error ⟨1, "Error assuming role: " ++ er2⟩ ∧
    lookupP config.intermediateProfile (mainRun config (env :: rest) s).2.store
      = some (credI, config.region) ∧
    (mainRun config (env :: rest) s).2.events = s.events ++
      [.callerIdCall ⟨config.region, config.intermediateProfile, false⟩,
       .mfaPrompt config.tokenSerialNumber,
       .sessionTokenCall ⟨config.region, config.profile, false⟩ config.intermediateDuration
         config.tokenSerialNumber (some (goTrim line)),
       .profileWrite config.intermediateProfile credI config.region,
       .callerIdCall ⟨config.region, config.intermediateProfile, false⟩,
       .assumeRoleCall ⟨config.region, config.intermediateProfile, false⟩ (getRoleArn config)
         (lastSegment arn) config.targetDuration] := by
  have hbp : baseProfileOf config = config.intermediateProfile := by
    unfold baseProfileOf
    rw [if_pos hser]
  have hmk : mkSess env config (baseProfileOf config)
      = ⟨config.region, config.intermediateProfile, false⟩ := by
    rw [hbp]
    simp [mkSess, hinst]
  have hens := ensureSessionTokenProfile_invalid config env s er line credI hser hv hl ht
  have hmsg : dieF "Error assuming role" er2 = ⟨1, "Error assuming role: " ++ er2⟩ := by
    unfold dieF
    rw [show ("Error assuming role" : String) ++ ": " = "Error assuming role: " by decide]
  have hrun : mainRun config (env :: rest) s =
      (.error (dieF "Error assuming role" er2),
       record (.assumeRoleCall ⟨config.region, config.intermediateProfile, false⟩
           (getRoleArn config) (lastSegment arn) config.targetDuration)
         (tick (record (.callerIdCall ⟨config.region, config.intermediateProfile, false⟩)
           (tick ({ record (.profileWrite config.intermediateProfile credI config.region)
               (record (.sessionTokenCall ⟨config.region, config.profile, false⟩
                   config.intermediateDuration config.tokenSerialNumber (some (goTrim line)))
                 (tick (record (.mfaPrompt config.tokenSerialNumber)
                   (tick (record
                     (.callerIdCall ⟨config.region, config.intermediateProfile, false⟩)
                     (tick s)))))) with
             store := upsert s.store config.intermediateProfile
               (credI, config.region) }))))) := by
    unfold mainRun mainLoop mainIter
    rw [if_pos hser, hens]
    simp only [mainIterTail, ensureTargetProfile, getCallerId, assumeRole, record, tick, hmk]
    simp [ha, hr, record, tick]
  refine ⟨?_, ?_, ?_, ?_⟩
  · intro envs2 s2 f s3 h
    unfold mainRun at h
    exact mainLoop_fatal config (baseProfileOf config) envs2 s2 f s3 h
  · rw [hrun, hmsg]
  · rw [hrun]
    simp only [record, tick]
    exact lookup_upsert_self _ _ _
  · rw [hrun]
    simp [record, tick]

/-- C4 witness: concrete denied-assume-role run under `envDeny`. -/
theorem C4_fatal_abort_witness :
    (mainRun cfgMfa [envDeny] st0).1 = .error ⟨1, "Error assuming role: " ++ "AccessDenied"⟩ ∧
    lookupP cfgMfa.intermediateProfile (mainRun cfgMfa [envDeny] st0).2.store
      = some (cred1, cfgMfa.region) ∧
    (mainRun cfgMfa [envDeny] st0).2.events = st0.events ++
      [.callerIdCall ⟨cfgMfa.region, cfgMfa.intermediateProfile, false⟩,
       .mfaPrompt cfgMfa.tokenSerialNumber,
       .sessionTokenCall ⟨cfgMfa.region, cfgMfa.profile, false⟩ cfgMfa.intermediateDuration
         cfgMfa.tokenSerialNumber (some (goTrim "123456\n")),
       .profileWrite cfgMfa.intermediateProfile cred1 cfgMfa.region,
       .callerIdCall ⟨cfgMfa.region, cfgMfa.intermediateProfile, false⟩,
       .assumeRoleCall ⟨cfgMfa.region, cfgMfa.intermediateProfile, false⟩ (getRoleArn cfgMfa)
         (lastSegment "arn:aws:iam::123:user/alice") cfgMfa.targetDuration] :=
  (C4_fatal_abort cfgMfa envDeny [] st0 "ExpiredToken" "AccessDenied" "123456\n"
    "arn:aws:iam::123:user/alice" cred1 (by decide) rfl rfl rfl rfl rfl rfl).2

/-- C8 witness: concrete identity `arn0` yields session name `"alice"` in
the `AssumeRole` call. -/
theorem C8_session_name_witness :
    Event.assumeRoleCall ⟨"eu-west-1", "default", false⟩ (getRoleArn cfg0)
        (lastSegment arn0) cfg0.targetDuration
      ∈ (ensureTargetProfile env0 cfg0 ⟨"eu-west-1", "default", false⟩ st0).2.events ∧
    lastSegment "arn:aws:iam::123:user/alice" = "alice" :=
  ⟨(C8_session_name cfg0 env0 ⟨"eu-west-1", "default", false⟩ st0 arn0 rfl).1,
   (C8_session_name cfg0 env0 ⟨"eu-west-1", "default", false⟩ st0 arn0 rfl).2.2.2⟩

end Swamp
